import Mathlib

/-!
Shallow embedding of the client-side conversation session coordinator of the
claudable web app, and proofs about its observable behaviour.

Sources embedded:
  - `apps/web/components/ConversationMonitor.tsx` (stats polling panel)
  - `apps/web/components/ConversationHistoryTab.tsx` (per-provider clear / reset-all)
  - `apps/web/components/SessionContinuityManager.tsx` (session restoration flow
    and the `ConversationStatusIndicator` widget)

React component state is modelled as explicit state records; each `async`
handler becomes a pure function from (state, completed network result) to the
new state or to the list of user-visible events it produces.  Network results
are modelled as an inductive covering the three cases the code distinguishes:
a completed HTTP response with `response.ok` true, a completed response with
`response.ok` false, and a thrown/network error (the `catch` branch).
-/

namespace Claudable

/-- One element of the `providers` array of `GET /api/conversation/{projectId}/stats`,
as declared by `interface ConversationStats` in `ConversationMonitor.tsx`.
`usage_percentage` is a JSON number, modelled as a rational. -/
structure ConversationStats where
  provider : String
  total_messages : Nat
  estimated_tokens : Nat
  context_window : Nat
  usage_percentage : ℚ
  optimization_applied : Bool
  last_optimization : Option String
deriving DecidableEq

/-- Outcome of one `fetch` of the stats endpoint, as distinguished by
`loadConversationStats`: a completed response (with its `ok` flag and the
optional `providers` field of the parsed JSON body, `none` when the body lacks
that field), or a thrown network error caught by the `catch` block. -/
inductive StatsFetchResult where
  | completed (ok : Bool) (providersField : Option (List ConversationStats))
  | networkError
deriving DecidableEq

/-- State update performed by `loadConversationStats` in `ConversationMonitor.tsx`
(lines 49-59) when its fetch settles: on `response.ok` it runs
`setStats(data.providers || [])` (the empty list when the field is missing);
on a non-ok response it does nothing; a thrown error only logs. -/
def loadConversationStatsApply (stats : List ConversationStats) :
    StatsFetchResult → List ConversationStats
  | .completed true providersField => providersField.getD []
  | .completed false _ => stats
  | .networkError => stats

/-- Several settled fetches applied to the component state in their arrival
order.  The code attaches no sequence information to a request, so arrival
order is the only order that exists. -/
def applyStatsResponses (stats : List ConversationStats)
    (rs : List StatsFetchResult) : List ConversationStats :=
  rs.foldl loadConversationStatsApply stats

/-- A sample stats row as an earlier-issued request would return it. -/
def statOldSample : ConversationStats :=
  ⟨"deepseek", 1, 100, 1000, 10, false, none⟩

/-- A sample stats row as a later-issued request would return it. -/
def statNewSample : ConversationStats :=
  ⟨"deepseek", 2, 200, 1000, 20, false, none⟩

/-- C1: the claim is false on the code.  Two stats fetches are issued, the
earlier one returning `[statOldSample]`, the later one returning
`[statNewSample]`.  The later-issued response arrives first; when the
earlier-issued response then arrives, `loadConversationStats` applies it
unconditionally — there is no sequence number and no discard — so the store
ends at the older request's snapshot. -/
theorem c1_counterexample :
    applyStatsResponses []
        [.completed true (some [statNewSample]),
         .completed true (some [statOldSample])] = [statOldSample]
    ∧ statOldSample ≠ statNewSample :=
  ⟨rfl, by decide⟩

/-- C1 (amended): responses carry no sequence numbers and none is ever
discarded as stale; they are applied in arrival order, so whichever ok
response with a `providers` field arrives last determines the snapshot,
regardless of issuance order. -/
theorem c1_last_arrival_wins (init : List ConversationStats)
    (rs : List StatsFetchResult) (ps : List ConversationStats) :
    applyStatsResponses init (rs ++ [.completed true (some ps)]) = ps := by
  simp [applyStatsResponses, List.foldl_append, loadConversationStatsApply]

/-- C2: the claim is false on the code.  A 2xx stats response whose body lacks
the `providers` field does not leave the snapshot unchanged:
`setStats(data.providers || [])` replaces it with the empty list. -/
theorem c2_counterexample :
    loadConversationStatsApply [statNewSample] (.completed true none) = []
    ∧ ([statNewSample] : List ConversationStats) ≠ [] :=
  ⟨rfl, by decide⟩

/-- C2 (amended): a 2xx response missing the `providers` field empties the
snapshot (no crash — the handler is total); a network error or a non-2xx
response leaves the snapshot unchanged. -/
theorem c2_missing_field_empties_store (stats : List ConversationStats)
    (body : Option (List ConversationStats)) :
    loadConversationStatsApply stats (.completed true none) = []
    ∧ loadConversationStatsApply stats .networkError = stats
    ∧ loadConversationStatsApply stats (.completed false body) = stats :=
  ⟨rfl, rfl, rfl⟩

/-! ### ConversationHistoryTab: provider table, clear-one, reset-all -/

/-- One entry of the static `PROVIDERS` table in `ConversationHistoryTab.tsx`
(lines 24-29). -/
structure ProviderMeta where
  id : String
  name : String
  icon : String
  color : String
deriving DecidableEq

/-- The static `PROVIDERS` table of `ConversationHistoryTab.tsx`. -/
def PROVIDERS : List ProviderMeta :=
  [⟨"deepseek", "DeepSeek", "üîç", "from-blue-500 to-indigo-600"⟩,
   ⟨"qwen", "Qwen", "üêâ", "from-red-500 to-pink-600"⟩,
   ⟨"kimi", "Kimi", "üåô", "from-purple-500 to-violet-600"⟩,
   ⟨"doubao", "Doubao", "ü´ò", "from-green-500 to-teal-600"⟩]

/-- `interface ConversationSummary` of `ConversationHistoryTab.tsx`. -/
structure ConversationSummary where
  total_messages : Nat
  user_messages : Nat
  assistant_messages : Nat
  has_system_prompt : Bool
  provider : String
deriving DecidableEq

/-- `interface ProviderInfo` of `ConversationHistoryTab.tsx`: the per-provider
entry of the `/providers` endpoint response. -/
structure ProviderInfo where
  active : Bool
  summary : Option ConversationSummary
deriving DecidableEq

/-- The component state of `ConversationHistoryTab` that gates its buttons:
`providersInfo` (a string-keyed record, modelled as an association list),
`isLoading`, and `clearingProvider`. -/
structure HistoryTabState where
  providersInfo : List (String × ProviderInfo)
  isLoading : Bool
  clearingProvider : Option String
deriving DecidableEq

/-- `providersInfo[provider.id]` — the `info` binding in the render loop. -/
def infoFor (s : HistoryTabState) (id : String) : Option ProviderInfo :=
  (s.providersInfo.find? (fun e => e.1 == id)).map (·.2)

/-- Whether a provider row's "Clear History" button is clickable: the source
disables it with `isLoading || isClearing || !info?.active`, where
`isClearing` is `clearingProvider === provider.id` and a missing `info` makes
`info?.active` falsy. -/
def clearOneEnabled (s : HistoryTabState) (id : String) : Bool :=
  !(s.isLoading || s.clearingProvider == some id
    || !(((infoFor s id).map (·.active)).getD false))

/-- Whether the "Clear All History" button is clickable: the source disables
it with `isLoading || Object.values(providersInfo).every(info => !info.active)`. -/
def clearAllEnabled (s : HistoryTabState) : Bool :=
  !(s.isLoading || s.providersInfo.all (fun e => !e.2.active))

/-- User-visible events and outbound mutations a click handler can produce,
in the order they happen. -/
inductive UIEvent where
  | confirmDialog (message : String)
  | alertDialog (message : String)
  | deleteHistoryRequest (projectId : String) (provider : String)
  | resetAllRequest (projectId : String)
deriving DecidableEq

/-- `e` is a `confirm(...)` dialog. -/
def UIEvent.isConfirmDialog : UIEvent → Bool
  | .confirmDialog _ => true
  | _ => false

/-- `e` is an outbound mutation (a DELETE of one provider's history or the
reset-all POST). -/
def UIEvent.isNetworkRequest : UIEvent → Bool
  | .deleteHistoryRequest _ _ => true
  | .resetAllRequest _ => true
  | _ => false

/-- `e` is a DELETE of one provider's history. -/
def UIEvent.isDeleteRequest : UIEvent → Bool
  | .deleteHistoryRequest _ _ => true
  | _ => false

/-- `pat` is an initial segment of `l`. -/
def charsStartWith : List Char → List Char → Bool
  | [], _ => true
  | _ :: _, [] => false
  | a :: pat, b :: l => a == b && charsStartWith pat l

/-- `pat` occurs contiguously inside `l`. -/
def charsContain (pat : List Char) : List Char → Bool
  | [] => charsStartWith pat []
  | b :: l => charsStartWith pat (b :: l) || charsContain pat l

/-- `t` occurs as a contiguous substring of `s` (computed on the underlying
character lists, so that concrete instances evaluate). -/
def stringMentions (s t : String) : Bool :=
  charsContain t.toList s.toList

/-- The text of the `confirm(...)` call in `clearConversationHistory`
(line 59): the provider's display name is looked up in `PROVIDERS`; for an id
outside the table, JS interpolates the string `"undefined"`. -/
def clearHistoryConfirmMessage (provider : String) : String :=
  "Are you sure you want to clear the conversation history for "
    ++ (((PROVIDERS.find? (fun p => p.id == provider)).map (·.name)).getD "undefined")
    ++ "? This action cannot be undone."

/-- Events produced by `clearConversationHistory` in
`ConversationHistoryTab.tsx` (lines 58-83) up to the point the DELETE is
issued: it always shows the confirm dialog first and returns without a
request when the user declines. -/
def clearConversationHistory (projectId provider : String) (confirmed : Bool) :
    List UIEvent :=
  .confirmDialog (clearHistoryConfirmMessage provider)
    :: (if confirmed then [.deleteHistoryRequest projectId provider] else [])

/-- Events produced by the clear button of `ConversationStatusIndicator` in
`SessionContinuityManager.tsx` (lines 275-295): its `onClick` issues the
DELETE directly, with no confirmation dialog. -/
def statusIndicatorClearClick (projectId activeProvider : String) :
    List UIEvent :=
  [.deleteHistoryRequest projectId activeProvider]

/-- C3: the claim is false on the code.  The `ConversationStatusIndicator`
clear button is a UI path that issues the DELETE for the active provider's
history with no confirmation dialog of any kind. -/
theorem c3_counterexample :
    (statusIndicatorClearClick "proj1" "deepseek").any UIEvent.isDeleteRequest = true
    ∧ (statusIndicatorClearClick "proj1" "deepseek").any UIEvent.isConfirmDialog = false := by
  decide

/-- C3 (amended): on the `ConversationHistoryTab` path the DELETE is issued
only after a confirm dialog naming the target provider (its first event is the
confirm dialog, the DELETE appears iff the user confirmed, and for a provider
in the `PROVIDERS` table the dialog text contains that provider's display
name); the `ConversationStatusIndicator` clear button, however, issues the
DELETE with no confirmation. -/
theorem c3_confirmation_by_path (projectId provider : String) (confirmed : Bool)
    (hmem : provider ∈ PROVIDERS.map ProviderMeta.id) :
    (clearConversationHistory projectId provider confirmed).head?
      = some (.confirmDialog (clearHistoryConfirmMessage provider))
    ∧ ((clearConversationHistory projectId provider confirmed).any
        UIEvent.isDeleteRequest = true ↔ confirmed = true)
    ∧ (∃ pm, PROVIDERS.find? (fun p => p.id == provider) = some pm
        ∧ stringMentions (clearHistoryConfirmMessage provider) pm.name = true)
    ∧ (statusIndicatorClearClick projectId provider).any
        UIEvent.isConfirmDialog = false := by
  refine ⟨rfl, ?_, ?_, by simp [statusIndicatorClearClick, UIEvent.isConfirmDialog]⟩
  · cases confirmed <;>
      simp [clearConversationHistory, UIEvent.isDeleteRequest, UIEvent.isConfirmDialog]
  · simp [PROVIDERS] at hmem
    rcases hmem with h | h | h | h <;> subst h
    · exact ⟨⟨"deepseek", "DeepSeek", "üîç", "from-blue-500 to-indigo-600"⟩, by decide, by decide⟩
    · exact ⟨⟨"qwen", "Qwen", "üêâ", "from-red-500 to-pink-600"⟩, by decide, by decide⟩
    · exact ⟨⟨"kimi", "Kimi", "üåô", "from-purple-500 to-violet-600"⟩, by decide, by decide⟩
    · exact ⟨⟨"doubao", "Doubao", "ü´ò", "from-green-500 to-teal-600"⟩, by decide, by decide⟩

/-- C3 (amended) witness at `projectId = "proj1"`, `provider = "deepseek"`,
`confirmed = true`. -/
theorem c3_confirmation_by_path_witness :
    ("deepseek" ∈ PROVIDERS.map ProviderMeta.id)
    ∧ ((clearConversationHistory "proj1" "deepseek" true).head?
        = some (.confirmDialog (clearHistoryConfirmMessage "deepseek"))
      ∧ ((clearConversationHistory "proj1" "deepseek" true).any
          UIEvent.isDeleteRequest = true ↔ true = true)
      ∧ (∃ pm, PROVIDERS.find? (fun p => p.id == "deepseek") = some pm
          ∧ stringMentions (clearHistoryConfirmMessage "deepseek") pm.name = true)
      ∧ (statusIndicatorClearClick "proj1" "deepseek").any
          UIEvent.isConfirmDialog = false) :=
  ⟨by decide, c3_confirmation_by_path "proj1" "deepseek" true (by decide)⟩

/-- A tab state in which a ClearOne for `"deepseek"` is in flight: the handler
has run `setClearingProvider('deepseek')` and its DELETE has not settled yet;
`isLoading` is false at that point (the handler never sets it). -/
def clearOneInFlightState : HistoryTabState :=
  { providersInfo := [("deepseek", ⟨true, none⟩), ("qwen", ⟨true, none⟩)],
    isLoading := false,
    clearingProvider := some "deepseek" }

/-- C4: the claim is false on the code.  With a ClearOne for `deepseek` in
flight, the "Clear All History" button is still enabled (its `disabled`
expression never consults `clearingProvider`), and so is the ClearOne button
of the other active provider `qwen` — a second mutation can be started
concurrently with the pending one. -/
theorem c4_counterexample :
    clearAllEnabled clearOneInFlightState = true
    ∧ clearOneEnabled clearOneInFlightState "qwen" = true := by
  decide

/-- C4 (amended): the gating is asymmetric.  While a ClearAll is in flight
(`isLoading` true) every ClearOne button and the ClearAll button itself are
disabled; but while a ClearOne for `q` is in flight, only `q`'s own button is
disabled — ClearAll and the other providers' ClearOne buttons are not
blocked. -/
theorem c4_mutation_gating (s : HistoryTabState) (id q : String) :
    (s.isLoading = true → clearOneEnabled s id = false ∧ clearAllEnabled s = false)
    ∧ (s.clearingProvider = some q → clearOneEnabled s q = false) := by
  constructor
  · intro h
    simp [clearOneEnabled, clearAllEnabled, h]
  · intro h
    simp [clearOneEnabled, h]

/-- A tab state with `isLoading` true and a recorded `clearingProvider`. -/
def bothFlagsSetState : HistoryTabState :=
  { providersInfo := [], isLoading := true, clearingProvider := some "deepseek" }

/-- C4 (amended) witness at a concrete state with both flags set. -/
theorem c4_mutation_gating_witness :
    (clearOneEnabled bothFlagsSetState "qwen" = false
      ∧ clearAllEnabled bothFlagsSetState = false)
    ∧ clearOneEnabled bothFlagsSetState "deepseek" = false :=
  ⟨(c4_mutation_gating bothFlagsSetState "qwen" "deepseek").1 rfl,
   (c4_mutation_gating bothFlagsSetState "qwen" "deepseek").2 rfl⟩

/-! ### ConversationMonitor: mount/unmount lifecycle and stale responses -/

/-- The `ConversationMonitor` state its `useEffect` lifecycle touches: the
current `projectId` prop, the `stats` state, and whether the periodic
30-second interval is live. -/
structure MonitorViewState where
  projectId : String
  stats : List ConversationStats
  timerActive : Bool
deriving DecidableEq

/-- Mounting `ConversationMonitor` (useEffect, lines 35-47): when `projectId`
is truthy an immediate fetch is started and the 30-second interval is
installed; `stats` starts at `useState([])`. -/
def mountMonitor (pid : String) : MonitorViewState :=
  { projectId := pid, stats := [], timerActive := pid != "" }

/-- The effect cleanup on unmount (lines 43-45): `clearInterval(interval)`.
Only the timer is touched; nothing cancels or tags in-flight fetches. -/
def unmountMonitor (s : MonitorViewState) : MonitorViewState :=
  { s with timerActive := false }

/-- A `projectId` prop change: the effect cleanup runs for the old id (old
interval cleared) and the effect re-runs for the new id (fresh fetch, fresh
interval).  Component state such as `stats` persists across the re-run. -/
def remountMonitor (s : MonitorViewState) (newPid : String) : MonitorViewState :=
  { s with projectId := newPid, timerActive := newPid != "" }

/-- A settled stats fetch handled by the view.  `requestPid` is the project id
the request was issued for; the source's continuation runs `setStats` without
ever comparing it to the view's current `projectId`, so the argument is
recorded here only to expose that it is ignored. -/
def handleStatsResponse (s : MonitorViewState) (requestPid : String)
    (r : StatsFetchResult) : MonitorViewState :=
  { s with stats := loadConversationStatsApply s.stats r }

/-- C5: the claim is false on the code.  A view mounted for project "A" is
switched to project "B" and receives B's snapshot; then the still-pending
response tagged with the old identifier "A" arrives and is applied anyway,
replacing B's snapshot — there is no stale-view guard keyed by project
identifier. -/
theorem c5_counterexample :
    (handleStatsResponse
        (handleStatsResponse (remountMonitor (mountMonitor "A") "B") "B"
          (.completed true (some [statNewSample])))
        "A" (.completed true (some [statOldSample]))).stats = [statOldSample]
    ∧ [statOldSample] ≠ [statNewSample] := by
  decide

/-- C5 (amended): unmounting does cancel the periodic timer, but pending
responses are not filtered by project identifier: a late response is applied
to the stats whatever project id (`requestPid`) its request carried. -/
theorem c5_timer_cancel_no_stale_guard (s : MonitorViewState)
    (requestPid : String) (ps : List ConversationStats) :
    (unmountMonitor s).timerActive = false
    ∧ (handleStatsResponse s requestPid (.completed true (some ps))).stats = ps :=
  ⟨rfl, rfl⟩

/-! ### ConversationMonitor: derived aggregate view -/

/-- The "Active Models" figure of `ConversationMonitor`'s overview row
(line 127): `stats.filter(s => s.total_messages > 0).length`.  The `/stats`
rows carry no `active` flag, so none is consulted. -/
def activeModelsCount (stats : List ConversationStats) : Nat :=
  (stats.filter (fun s => 0 < s.total_messages)).length

/-- Modelled from the spec: §3 `ProviderConversationState`, the Store's
per-provider record, including the `active` flag that the `/stats` endpoint
does not deliver. -/
structure SpecProviderState where
  active : Bool
  totalMessages : Nat
  userMessages : Nat
  assistantMessages : Nat
  hasSystemPrompt : Bool
  estimatedTokens : Nat
  contextWindow : Nat
  usagePercentage : ℚ
  optimizationApplied : Bool
  lastOptimizationTimestamp : Option String
deriving DecidableEq

/-- The `/stats` row corresponding to a keyed spec-level provider entry: the
key becomes `provider`, the stats fields are copied, and the `active`,
per-role message and system-prompt fields have no counterpart. -/
def statsOfSpec (e : String × SpecProviderState) : ConversationStats :=
  ⟨e.1, e.2.totalMessages, e.2.estimatedTokens, e.2.contextWindow,
   e.2.usagePercentage, e.2.optimizationApplied, e.2.lastOptimizationTimestamp⟩

/-- Modelled from the spec:
`aggregate().activeCount == count(p : state[p].active && state[p].totalMessages>0)`. -/
def specActiveCount (snapshot : List (String × SpecProviderState)) : Nat :=
  (snapshot.filter (fun e => e.2.active && decide (0 < e.2.totalMessages))).length

/-- A spec-level provider entry that is inactive yet holds messages. -/
def inactiveSpecSample : SpecProviderState :=
  ⟨false, 5, 2, 3, false, 100, 1000, 10, false, none⟩

/-- A spec-level provider entry that is active and holds messages. -/
def activeSpecSample : SpecProviderState :=
  ⟨true, 5, 2, 3, true, 100, 1000, 10, false, none⟩

/-- C6: the claim is false on the code.  On a snapshot holding one provider
that is inactive but has 5 messages, the monitor's active count is 1 while
the spec's `active && totalMessages > 0` count is 0: the code counts only
`total_messages > 0` and never consults an `active` flag (its snapshot rows
do not even carry one). -/
theorem c6_counterexample :
    activeModelsCount ([("deepseek", inactiveSpecSample)].map statsOfSpec) = 1
    ∧ specActiveCount [("deepseek", inactiveSpecSample)] = 0 := by
  decide

/-- C6 (amended): the monitor's active count equals the number of snapshot
rows with `total_messages > 0`; it coincides with the spec's two-condition
count precisely on snapshots in which every provider is active. -/
theorem c6_active_count_agreement (snapshot : List (String × SpecProviderState))
    (h : ∀ e ∈ snapshot, e.2.active = true) :
    activeModelsCount (snapshot.map statsOfSpec) = specActiveCount snapshot := by
  induction snapshot with
  | nil => rfl
  | cons e t ih =>
    have he : e.2.active = true := h e (List.mem_cons_self _ _)
    have ht : ∀ x ∈ t, x.2.active = true := fun x hx => h x (List.mem_cons_of_mem _ hx)
    have ih2 := ih ht
    by_cases h0 : 0 < e.2.totalMessages <;>
      simp [activeModelsCount, specActiveCount, List.filter_cons, statsOfSpec,
        he, h0] at ih2 ⊢ <;>
      exact ih2

/-- C6 (amended) witness at a two-provider all-active snapshot. -/
theorem c6_active_count_agreement_witness :
    (∀ e ∈ ([("deepseek", activeSpecSample), ("qwen", activeSpecSample)] :
        List (String × SpecProviderState)), e.2.active = true)
    ∧ activeModelsCount
        (([("deepseek", activeSpecSample), ("qwen", activeSpecSample)] :
          List (String × SpecProviderState)).map statsOfSpec)
      = specActiveCount [("deepseek", activeSpecSample), ("qwen", activeSpecSample)] :=
  ⟨by decide, c6_active_count_agreement _ (by decide)⟩

/-! ### SessionContinuityManager: the restoration flow -/

/-- The inline `summary` record of `interface ConversationState` in
`SessionContinuityManager.tsx`. -/
structure SessionSummary where
  total_messages : Nat
  user_messages : Nat
  assistant_messages : Nat
  has_system_prompt : Bool
deriving DecidableEq

/-- One value of the `ConversationState` mapping of
`SessionContinuityManager.tsx`: per-provider `active` flag and summary. -/
structure ProviderConversationEntry where
  active : Bool
  summary : SessionSummary
deriving DecidableEq

/-- Outcome of the `/providers` fetch as `checkAndRestoreConversations`
distinguishes it: an ok response with its parsed body, a completed non-ok
response (the code has no branch for it at all), or a thrown network error
(the `catch` block). -/
inductive ProvidersFetchResult where
  | ok (data : List (String × ProviderConversationEntry))
  | httpError
  | networkError
deriving DecidableEq

/-- `interface SessionInfo` of `SessionContinuityManager.tsx`. -/
structure SessionInfo where
  hasActiveConversation : Bool
  providers : List String
  lastActivity : String
  messageCount : Nat
deriving DecidableEq

/-- Everything observable that one run of `checkAndRestoreConversations`
produces: the `sessionInfo` state it sets, the argument of the
`onSessionRestore` callback if invoked, the argument of the
`onConversationLoaded` callback if invoked, the status banner text if shown
(`setStatusMessage` + `setShowStatus(true)`), and the final `isLoading`. -/
structure RestoreOutcome where
  sessionInfo : Option SessionInfo
  restoredCallback : Option SessionInfo
  loadedCallback : Option Bool
  statusMessage : Option String
  isLoading : Bool
deriving DecidableEq

/-- The lookup table of `formatProviderName` in
`SessionContinuityManager.tsx` (lines 108-116). -/
def sessionProviderNames : List (String × String) :=
  [("deepseek", "DeepSeek"), ("qwen", "通义千问"),
   ("kimi", "Kimi"), ("doubao", "豆包")]

/-- `formatProviderName`: `providerNames[provider] || provider`. -/
def formatProviderName (provider : String) : String :=
  ((sessionProviderNames.find? (fun e => e.1 == provider)).map (·.2)).getD provider

/-- `checkAndRestoreConversations` in `SessionContinuityManager.tsx`
(lines 49-106), as a function of the fetch outcome.  `now` stands for
`new Date().toISOString()`.  On an ok response it filters to providers with
`info.active && info.summary.total_messages > 0`; if any remain it sums
`total_messages` over all *active* entries, sets and reports the session
info, and shows the status banner; otherwise it only calls
`onConversationLoaded(false)`.  A non-ok response falls through the `if`
with no else: nothing is called.  A thrown error is caught and reported as
`onConversationLoaded(false)`.  The `finally` block always clears
`isLoading`. -/
def checkAndRestoreConversations (now : String) :
    ProvidersFetchResult → RestoreOutcome
  | .ok data =>
    let activeProviders :=
      (data.filter (fun e => e.2.active && decide (0 < e.2.summary.total_messages))).map (·.1)
    if 0 < activeProviders.length then
      let totalMessages :=
        ((data.map (·.2)).filter (·.active)).foldl
          (fun sum info => sum + info.summary.total_messages) 0
      let si : SessionInfo := ⟨true, activeProviders, now, totalMessages⟩
      { sessionInfo := some si,
        restoredCallback := some si,
        loadedCallback := some true,
        statusMessage := some ("已恢复与 "
          ++ String.intercalate "、" (activeProviders.map formatProviderName)
          ++ " 的对话历史 (" ++ toString totalMessages ++ "条消息)"),
        isLoading := false }
    else
      { sessionInfo := none, restoredCallback := none,
        loadedCallback := some false, statusMessage := none, isLoading := false }
  | .httpError =>
      { sessionInfo := none, restoredCallback := none,
        loadedCallback := none, statusMessage := none, isLoading := false }
  | .networkError =>
      { sessionInfo := none, restoredCallback := none,
        loadedCallback := some false, statusMessage := none, isLoading := false }

/-- C7: the claim is false on the code.  A non-2xx response does not behave
like the empty-set case: the empty-set case invokes `onConversationLoaded`
with `false`, while on a non-ok response the flow invokes no callback at all
(the `if (response.ok)` has no else branch). -/
theorem c7_counterexample :
    (checkAndRestoreConversations "t0" .httpError).loadedCallback = none
    ∧ (checkAndRestoreConversations "t0" (.ok [])).loadedCallback = some false := by
  decide

/-- C7 (amended): a thrown network error and an empty filtered set behave
identically — consumer callback notified with `false`, no status banner, no
fault; but a completed non-2xx response silently does nothing: no callback,
no banner (and no fault). -/
theorem c7_failure_paths (now : String)
    (data : List (String × ProviderConversationEntry))
    (h : ∀ e ∈ data, e.2.active = false ∨ e.2.summary.total_messages = 0) :
    checkAndRestoreConversations now (.ok data)
      = checkAndRestoreConversations now .networkError
    ∧ (checkAndRestoreConversations now .networkError).loadedCallback = some false
    ∧ (checkAndRestoreConversations now .networkError).statusMessage = none
    ∧ (checkAndRestoreConversations now .httpError).loadedCallback = none
    ∧ (checkAndRestoreConversations now .httpError).statusMessage = none := by
  refine ⟨?_, rfl, rfl, rfl, rfl⟩
  have hfil : data.filter (fun e => e.2.active && decide (0 < e.2.summary.total_messages)) = [] := by
    rw [List.filter_eq_nil_iff]
    intro e he
    rcases h e he with ha | hm
    · simp [ha]
    · simp [hm]
  simp [checkAndRestoreConversations, hfil]

/-- C7 (amended) witness at a concrete inactive-only snapshot. -/
theorem c7_failure_paths_witness :
    (∀ e ∈ ([("kimi", ⟨false, ⟨3, 1, 2, false⟩⟩)] :
        List (String × ProviderConversationEntry)),
      e.2.active = false ∨ e.2.summary.total_messages = 0)
    ∧ checkAndRestoreConversations "t0"
        (.ok [("kimi", ⟨false, ⟨3, 1, 2, false⟩⟩)])
      = checkAndRestoreConversations "t0" .networkError :=
  ⟨by decide, (c7_failure_paths "t0" _ (by decide)).1⟩

/-- The providers response of the restoration-flow example: deepseek active
with 5 messages, qwen active with 3 messages, kimi inactive. -/
def restorationExampleData : List (String × ProviderConversationEntry) :=
  [("deepseek", ⟨true, ⟨5, 2, 3, true⟩⟩),
   ("qwen", ⟨true, ⟨3, 1, 2, false⟩⟩),
   ("kimi", ⟨false, ⟨0, 0, 0, false⟩⟩)]

/-- C8: on the example response the flow reports
`hasActiveConversation = true`, `providers = [deepseek, qwen]`,
`messageCount = 8`, and the status banner text contains both display names
("DeepSeek" and "通义千问") and "8". -/
theorem c8_restoration_example :
    (checkAndRestoreConversations "2026-01-01T00:00:00Z"
        (.ok restorationExampleData)).restoredCallback
      = some ⟨true, ["deepseek", "qwen"], "2026-01-01T00:00:00Z", 8⟩
    ∧ (checkAndRestoreConversations "2026-01-01T00:00:00Z"
        (.ok restorationExampleData)).statusMessage
      = some "已恢复与 DeepSeek、通义千问 的对话历史 (8条消息)"
    ∧ stringMentions "已恢复与 DeepSeek、通义千问 的对话历史 (8条消息)" "DeepSeek" = true
    ∧ stringMentions "已恢复与 DeepSeek、通义千问 的对话历史 (8条消息)" "通义千问" = true
    ∧ stringMentions "已恢复与 DeepSeek、通义千问 的对话历史 (8条消息)" "8" = true := by
  decide

/-! ### Usage percentage: computation, storage, display clamp -/

/-- Modelled from the spec: the external stats service derives
`usage_percentage` as `estimated_tokens / context_window * 100` (§3, §6); the
service that computes it is not part of the client source. -/
def computeUsagePercentage (estimatedTokens contextWindow : ℚ) : ℚ :=
  estimatedTokens / contextWindow * 100

/-- The progress-bar width of `ConversationMonitor` (line 189):
`Math.min(stat.usage_percentage, 100)` — the only clamp in the component;
the textual readouts use `stat.usage_percentage` directly. -/
def progressBarWidthPercent (p : ℚ) : ℚ :=
  min p 100

/-- C9: `usage_percentage` is `estimated_tokens / context_window * 100`
(8000 over 10000 gives exactly 80); applying an ok stats response stores the
received rows verbatim, so a value above 100 is retained unclamped in the
state; the clamp to 100 exists only in the rendered progress-bar width. -/
theorem c9_usage_unclamped (stats : List ConversationStats)
    (stat : ConversationStats) (h : 100 < stat.usage_percentage) :
    computeUsagePercentage 8000 10000 = 80
    ∧ loadConversationStatsApply stats (.completed true (some [stat])) = [stat]
    ∧ progressBarWidthPercent stat.usage_percentage = 100
    ∧ progressBarWidthPercent 80 = 80 := by
  refine ⟨by norm_num [computeUsagePercentage], rfl, ?_,
    by norm_num [progressBarWidthPercent]⟩
  simp [progressBarWidthPercent, min_eq_right (le_of_lt h)]

/-- A stats row whose usage percentage exceeds 100. -/
def overBudgetStatSample : ConversationStats :=
  ⟨"deepseek", 3, 12000, 10000, 120, false, none⟩

/-- C9 witness at a row with usage percentage 120. -/
theorem c9_usage_unclamped_witness :
    (100 : ℚ) < overBudgetStatSample.usage_percentage
    ∧ (computeUsagePercentage 8000 10000 = 80
      ∧ loadConversationStatsApply []
          (.completed true (some [overBudgetStatSample])) = [overBudgetStatSample]
      ∧ progressBarWidthPercent overBudgetStatSample.usage_percentage = 100
      ∧ progressBarWidthPercent 80 = 80) :=
  ⟨by norm_num [overBudgetStatSample],
   c9_usage_unclamped [] overBudgetStatSample (by norm_num [overBudgetStatSample])⟩

/-! ### ConversationHistoryTab: reset-all -/

/-- Events produced by `resetAllConversations` in `ConversationHistoryTab.tsx`
(lines 85-121) up to the point the POST is issued.  The display names of the
currently-active providers are computed by
`Object.entries(providersInfo).filter(([_, info]) => info.active)
.map(([provider, _]) => PROVIDERS.find(p => p.id === provider)?.name)
.filter(Boolean)`; the `filter(Boolean)` drops the `undefined` produced by
ids outside `PROVIDERS`.  With no names left it alerts and returns without a
request; otherwise it asks for confirmation naming every resolved provider
and issues the reset-all POST only when confirmed. -/
def resetAllConversations (projectId : String)
    (providersInfo : List (String × ProviderInfo)) (confirmed : Bool) :
    List UIEvent :=
  let activeProviders :=
    (providersInfo.filter (fun e => e.2.active)).filterMap
      (fun e => (PROVIDERS.find? (fun p => p.id == e.1)).map (·.name))
  if activeProviders.length == 0 then
    [.alertDialog "No active conversation history to clear."]
  else
    .confirmDialog ("Are you sure you want to clear conversation history for all "
        ++ toString activeProviders.length ++ " models?\n\nIncluding: "
        ++ String.intercalate ", " activeProviders
        ++ "\n\nThis action cannot be undone.")
      :: (if confirmed then [.resetAllRequest projectId] else [])

/-- C10: ClearAll's "currently-active providers" are the active ids mapped
through the static `PROVIDERS` table with unknown ids dropped; whenever every
active id lies outside the table — in particular whenever there are no active
ids at all — ClearAll takes the nothing-to-clear alert path and issues zero
network requests. -/
theorem c10_reset_all_noop (projectId : String)
    (providersInfo : List (String × ProviderInfo)) (confirmed : Bool)
    (h : ∀ e ∈ providersInfo, e.2.active = true →
      PROVIDERS.find? (fun p => p.id == e.1) = none) :
    resetAllConversations projectId providersInfo confirmed
      = [.alertDialog "No active conversation history to clear."]
    ∧ (resetAllConversations projectId providersInfo confirmed).any
        UIEvent.isNetworkRequest = false := by
  have hnil : (providersInfo.filter (fun e => e.2.active)).filterMap
      (fun e => (PROVIDERS.find? (fun p => p.id == e.1)).map (·.name)) = [] := by
    rw [List.filterMap_eq_nil_iff]
    intro e he
    rw [List.mem_filter] at he
    rw [h e he.1 he.2]
    rfl
  constructor
  · simp [resetAllConversations, hnil]
  · simp [resetAllConversations, hnil, UIEvent.isNetworkRequest]

/-- C10 witness: a snapshot whose only active provider id `"gpt4"` lies
outside the `PROVIDERS` table — ClearAll still takes the nothing-to-clear
path even though an active provider exists. -/
theorem c10_reset_all_noop_witness :
    (∀ e ∈ ([("gpt4", ⟨true, none⟩), ("kimi", ⟨false, none⟩)] :
        List (String × ProviderInfo)), e.2.active = true →
      PROVIDERS.find? (fun p => p.id == e.1) = none)
    ∧ resetAllConversations "proj1"
        [("gpt4", ⟨true, none⟩), ("kimi", ⟨false, none⟩)] true
      = [.alertDialog "No active conversation history to clear."] :=
  ⟨by decide, (c10_reset_all_noop "proj1" _ true (by decide)).1⟩

end Claudable
